import Mathlib

set_option maxRecDepth 100000

/-!
Shallow embedding of `Manchester.h` (ETAG_V10): the EM4100 and FDX-B
interrupt-driven RFID decoders, their integrity checks, the read-session
logic of `FastRead` / `ISOFastRead`, and the presentation helpers
`processTag` / `processISOTag`.

Machine integers are modelled as `Nat` with explicit `% 2^w` where the C
code truncates (uint8 bytes, uint16 counters, uint32 products).
-/

/-- `bitSet` on a C `uint8` cell: `b |= (1 << k)`, stored back into a byte. -/
def bitSetByte (b k : Nat) : Nat := (b ||| (1 <<< k)) % 256

/-- `bitClear` on a C `uint8` cell: `b &= ~(1 << k)`, stored back into a byte
(for `k ≥ 8` the low 8 bits of the mask are all ones, so the byte is kept). -/
def bitClearByte (b k : Nat) : Nat := b &&& (255 ^^^ ((1 <<< k) % 256))

/-- `bitSet` on the `unsigned int` bitmap `parityFail` (bit index ≤ 10). -/
def bitSetU (x j : Nat) : Nat := x ||| (1 <<< j)

/-- `bitClear` on the `unsigned int` bitmap `parityFail`: `x &= ~(1 << j)`
with a 32-bit mask. -/
def bitClearU (x j : Nat) : Nat := x &&& (4294967295 ^^^ (1 <<< j))

/-- `crc16k`'s inner loop body: one shift-and-conditionally-xor round
(`crc1 & 1 ? (crc1 >> 1) ^ 0x8408 : crc1 >> 1`). -/
def crcRound (c : Nat) : Nat := if c &&& 1 = 1 then (c >>> 1) ^^^ 0x8408 else c >>> 1

/-- Eight rounds of `crcRound` applied to the CRC after a byte has been
xor-ed in, as in `crc16k`'s `for (uint8_t k = 0; k < 8; k++)`. -/
def crcByte (c b : Nat) : Nat :=
  (crcRound ∘ crcRound ∘ crcRound ∘ crcRound ∘ crcRound ∘ crcRound ∘ crcRound ∘ crcRound)
    (c ^^^ b)

/-- `crc16k(crc1, mem, len)` from `Manchester.h`: byte-wise reflected
CRC with polynomial `0x8408`; the caller passes the first `len` bytes. -/
def crc16k (crc1 : Nat) (mem : List Nat) : Nat := mem.foldl crcByte crc1

/-- Decoder state touched by `ISOINT_demodOut`: the globals
`crc, crcOK, pulseCount, tenZ, pulse2, RFID.byteCounter, RFID.bitCounter,
RFIDbytes`. -/
structure ISOState where
  crc : Nat
  crcOK : Nat
  pulseCount : Nat
  tenZ : Nat
  pulse2 : Nat
  byteCounter : Nat
  bitCounter : Nat
  bytes : List Nat
deriving DecidableEq

/-- The two pulse-window tests of `ISOINT_demodOut` (`switchVar` is 0 by
default, 1 for a short pulse, 2 for a long pulse), applied in source order. -/
def isoClassify (fDiff : Nat) : Nat :=
  let sv : Nat := 0
  let sv := if 85 < fDiff ∧ fDiff < 170 then 1 else sv
  let sv := if 200 < fDiff ∧ fDiff < 275 then 2 else sv
  sv

/-- The CRC-check block of `ISOINT_demodOut` (lines guarded by
`RFID.byteCounter==9 && RFID.bitCounter==8`): compute `crc16k` over the
first 8 bytes, compare with `(RFIDbytes[9]<<8) + RFIDbytes[8]`; on a match
set `crcOK = 1`, on a mismatch force `switchVar = 0`. -/
def isoCheckStage (s : ISOState) (sv : Nat) : ISOState × Nat :=
  if s.byteCounter = 9 ∧ s.bitCounter = 8 then
    let c := crc16k 0 (s.bytes.take 8)
    if c = ((s.bytes.getD 9 0) <<< 8) + s.bytes.getD 8 0 then
      ({ s with crc := c, crcOK := 1 }, sv)
    else
      ({ s with crc := c }, 0)
  else (s, sv)

/-- The `switch (switchVar)` of `ISOINT_demodOut`: case 1 short pulse,
case 2 long pulse, case 0 resync, case 3 read completed. -/
def isoSwitch (s : ISOState) (sv : Nat) : ISOState :=
  if sv = 1 then
      if s.pulse2 = 0 then
        if s.bitCounter ≠ 8 then
          let s := { s with pulse2 := 1, pulseCount := (s.pulseCount + 1) % 65536 }
          let tempZ := s.tenZ &&& 0x3FF
          if tempZ ≠ 0 then
            { s with tenZ := (s.tenZ <<< 1) % 65536 }
          else
            { s with
                bytes := s.bytes.set s.byteCounter
                  (bitClearByte (s.bytes.getD s.byteCounter 0) s.bitCounter),
                bitCounter := (s.bitCounter + 1) % 256 }
        else
          { s with byteCounter := 0, bitCounter := 10, tenZ := 0xFFFF }
      else
        { s with pulse2 := 0 }
  else if sv = 2 then
      let s := { s with pulse2 := 0, pulseCount := (s.pulseCount + 1) % 65536 }
      let tempZ := s.tenZ &&& 0x3FF
      if tempZ ≠ 0 then
        { s with tenZ := ((s.tenZ <<< 1) + 1) % 65536 }
      else
        if s.bitCounter < 8 then
          { s with
              bytes := s.bytes.set s.byteCounter
                (bitSetByte (s.bytes.getD s.byteCounter 0) s.bitCounter),
              bitCounter := (s.bitCounter + 1) % 256 }
        else
          let s := if s.bitCounter = 8 then
              { s with bitCounter := 0, byteCounter := (s.byteCounter + 1) % 256 }
            else s
          if s.bitCounter ≥ 9 then { s with bitCounter := 0, byteCounter := 0 } else s
  else if sv = 0 then
      { s with crcOK := 0, byteCounter := 0, bitCounter := 10, tenZ := 0xFFFF, pulse2 := 0 }
  else if sv = 3 then
      (if s.crcOK > 0 then { s with crcOK := 3 } else s)
  else s

/-- One invocation of `ISOINT_demodOut` on an edge whose truncated
inter-edge interval is `fDiff`; the Bool records whether the CRC-check
block executed on this edge. Entirely skipped when `crcOK = 3`
("Do nothing if tag read is complete"). -/
def isoStepI (s : ISOState) (fDiff : Nat) : ISOState × Bool :=
  if s.crcOK = 3 then (s, false)
  else
    let sv := isoClassify fDiff
    let checked : Bool := decide (s.byteCounter = 9 ∧ s.bitCounter = 8)
    let p := isoCheckStage s sv
    let s1 := p.1
    let sv := if s1.byteCounter = 12 ∧ s1.bitCounter = 8 then 3 else p.2
    (isoSwitch s1 sv, checked)

/-- One invocation of `ISOINT_demodOut` (state part). -/
def isoStep (s : ISOState) (fDiff : Nat) : ISOState := (isoStepI s fDiff).1

/-- Decoder state touched by `INT_demodOut`: the globals `rParity,
parityFail, pulseCount, OneCounter, longPulseDetected, pastPulseLong,
RFIDbyteCounter, RFIDbitCounter, RFIDbytes`. -/
structure EMState where
  rParity : Nat
  parityFail : Nat
  pulseCount : Nat
  OneCounter : Nat
  longPulseDetected : Nat
  pastPulseLong : Nat
  byteCounter : Nat
  bitCounter : Nat
  bytes : List Nat
deriving DecidableEq

/-- The recomputed row parity of `INT_demodOut` (line `rParity = ((tb >> 4)
& 1) ^ ((tb >> 3) & 1) ^ ((tb >> 2) & 1) ^ ((tb >> 1) & 1)`). -/
def rowParity (tb : Nat) : Nat :=
  ((tb >>> 4) &&& 1) ^^^ ((tb >>> 3) &&& 1) ^^^ ((tb >>> 2) &&& 1) ^^^ ((tb >>> 1) &&& 1)

/-- The column-parity accumulator of `INT_demodOut`: start from
`(RFIDbytes[10] & B00011111) >> 1` and xor in `RFIDbytes[i] >> 1` for
`i = 0..9`. -/
def colXor (bytes : List Nat) : Nat :=
  (List.range 10).foldl (fun a i => a ^^^ ((bytes.getD i 0) >>> 1))
    (((bytes.getD 10 0) &&& 0x1F) >>> 1)

/-- The pulse-measuring half of `INT_demodOut` (the two timing windows):
returns the updated counters together with the local `RFbit`
(255 = no pulse, 200 = pulse but no data bit, 0/1 = data bit `fVal`). -/
def emPulsePhase (s : EMState) (fDiff fVal : Nat) : EMState × Nat :=
  let p : EMState × Nat :=
    if 395 < fDiff ∧ fDiff < 600 then
      let s := { s with pulseCount := (s.pulseCount + 1) % 65536,
                        longPulseDetected := 1, pastPulseLong := 1 }
      if s.OneCounter < 9 then
        (if fVal = 1 then { s with OneCounter := s.OneCounter + 1 }
         else { s with OneCounter := 0 }, 200)
      else (s, fVal)
    else (s, 255)
  let s := p.1
  if 170 < fDiff ∧ fDiff < 395 then
    let s := { s with pulseCount := (s.pulseCount + 1) % 65536 }
    if s.longPulseDetected = 1 ∧ s.pastPulseLong = 1 then
      let q : EMState × Nat :=
        if s.OneCounter < 9 then
          (if fVal = 1 then { s with OneCounter := s.OneCounter + 1 }
           else { s with OneCounter := 0 }, 200)
        else (s, fVal)
      ({ q.1 with pastPulseLong := 0 }, q.2)
    else ({ s with pastPulseLong := 1 }, 200)
  else p

/-- The byte cell after `INT_demodOut` stores data bit `b` at the current
`(RFIDbyteCounter, RFIDbitCounter)` position (`RFbit == 1 ? bitSet :
bitClear`). -/
def emStoredByte (s : EMState) (b : Nat) : Nat :=
  if b = 1 then bitSetByte (s.bytes.getD s.byteCounter 0) s.bitCounter
  else bitClearByte (s.bytes.getD s.byteCounter 0) s.bitCounter

/-- The `RFbit < 100` block of `INT_demodOut`: store the data bit `b` at
`(RFIDbyteCounter, RFIDbitCounter)`, update the running parity, and at the
end of a line run the row-parity check (rows 0..9) or the column-parity
check (group 10). The two Bools record whether the row check and the
column check executed. -/
def emStoreI (s : EMState) (b : Nat) : EMState × Bool × Bool :=
  let tb0 := emStoredByte s b
  let s := { s with bytes := s.bytes.set s.byteCounter tb0 }
  if s.bitCounter > 0 then
    ({ s with rParity := s.rParity ^^^ b, bitCounter := s.bitCounter - 1 }, false, false)
  else
    let p : EMState × Bool :=
      if s.bitCounter = 0 ∧ s.byteCounter < 10 then
        let tb := s.bytes.getD s.byteCounter 0
        let s := if rowParity tb = tb &&& 1 then
            { s with parityFail := bitClearU s.parityFail s.byteCounter }
          else
            { s with parityFail := bitSetU s.parityFail s.byteCounter }
        ({ s with rParity := 0, byteCounter := s.byteCounter + 1, bitCounter := 4 }, true)
      else (s, false)
    let s := p.1
    if s.bitCounter = 0 ∧ s.byteCounter = 10 then
      (if colXor s.bytes = 0 then
          ({ s with parityFail := bitClearU s.parityFail s.byteCounter }, p.2, true)
        else (s, p.2, true))
    else (s, p.2, false)

/-- The store block of `INT_demodOut` (state part). -/
def emStore (s : EMState) (b : Nat) : EMState := (emStoreI s b).1

/-- The no-pulse reset of `INT_demodOut` (`RFbit == 255 && pulseCount != 0`):
clear everything except `pulseCount`. -/
def emReset (s : EMState) : EMState :=
  { s with rParity := 0, parityFail := 0x7FF, OneCounter := 0,
           longPulseDetected := 0, pastPulseLong := 0,
           byteCounter := 0, bitCounter := 4, bytes := List.replicate 16 0 }

/-- One invocation of `INT_demodOut` on an edge with truncated inter-edge
interval `fDiff` and line level `fVal`; the Bools record whether the
row-parity check and the column-parity check executed on this edge. -/
def emStepI (s : EMState) (fDiff fVal : Nat) : EMState × Bool × Bool :=
  let p := emPulsePhase s fDiff fVal
  let s1 := p.1
  let rfbit := p.2
  if rfbit < 100 then emStoreI s1 rfbit
  else if rfbit = 255 ∧ s1.pulseCount ≠ 0 then (emReset s1, false, false)
  else (s1, false, false)

/-- One invocation of `INT_demodOut` (state part). -/
def emStep (s : EMState) (fDiff fVal : Nat) : EMState := (emStepI s fDiff fVal).1

/-! ### Pulse classification as seen from the claims

The handlers compute `uint16_t fDiff = timeNow - lastTime` from the two
`uint32` microsecond stamps, so the elapsed time enters the window tests
truncated to 16 bits. -/

inductive PulseClass where
  | SHORT
  | LONG
  | INVALID
deriving DecidableEq

/-- The EM4100 window tests of `INT_demodOut` as a classification of the
(already truncated) `fDiff`. -/
def emClass (fDiff : Nat) : PulseClass :=
  if 395 < fDiff ∧ fDiff < 600 then .LONG
  else if 170 < fDiff ∧ fDiff < 395 then .SHORT
  else .INVALID

/-- The FDX-B window tests of `ISOINT_demodOut` as a classification of the
(already truncated) `fDiff`, via `switchVar`. -/
def isoClass (fDiff : Nat) : PulseClass :=
  match isoClassify fDiff with
  | 1 => .SHORT
  | 2 => .LONG
  | _ => .INVALID

/-- EM4100 classification of the true elapsed time `dt` between edges:
the handler sees `dt` truncated to `uint16`. -/
def emClassOfDelta (dt : Nat) : PulseClass := emClass (dt % 65536)

/-- FDX-B classification of the true elapsed time `dt` between edges. -/
def isoClassOfDelta (dt : Nat) : PulseClass := isoClass (dt % 65536)

/-! ### Read sessions -/

/-- The antenna/input selection at the top of `FastRead` and
`ISOFastRead`: shutdown pins (`true` = HIGH) and the demodulator input
pin. `SHD_PINA`/`SHD_PINB` are active-high shutdown = LOW enables. -/
structure ArmConfig where
  shdA : Bool
  shdB : Bool
  pin : Nat
deriving DecidableEq

/-- `FastRead`'s circuit selection: circuit 1 gets `DEMOD_OUT_1` (41),
every other argument falls into the `else` branch (circuit 2,
`DEMOD_OUT_2` = 42). -/
def selectCircuitEM (whichCircuit : Nat) : ArmConfig :=
  if whichCircuit = 1 then ⟨false, true, 41⟩ else ⟨true, false, 42⟩

/-- `ISOFastRead`'s circuit selection (textually identical to
`FastRead`'s). -/
def selectCircuitISO (whichCircuit : Nat) : ArmConfig :=
  if whichCircuit = 1 then ⟨false, true, 41⟩ else ⟨true, false, 42⟩

/-- Observable outcome of a read session: the returned byte, which input
pin was armed, whether the `readTime` wait loop was entered, and the final
interrupt/antenna state (`shutDownRFID` drives both shutdown pins HIGH). -/
structure SessionOut where
  result : Nat
  armedPin : Nat
  enteredWait : Bool
  detached : Bool
  shdA : Bool
  shdB : Bool
deriving DecidableEq

/-- `FastRead` after the `delay(checkDelay)` sleep, parametrised by the
oracle values produced by the interrupt handler: `pulseCountAtGate` is
`pulseCount` when the presence gate runs, `exitParityFail` is `parityFail`
when the wait loop exits (loop condition
`millis() < stopMillis & parityFail != 0`). -/
def fastReadModel (whichCircuit checkDelay pulseCountAtGate exitParityFail : Nat) :
    SessionOut :=
  let cfg := selectCircuitEM whichCircuit
  if pulseCountAtGate > checkDelay - 25 then
    { result := if exitParityFail = 0 then 1 else 0,
      armedPin := cfg.pin, enteredWait := true, detached := true,
      shdA := true, shdB := true }
  else
    { result := 0, armedPin := cfg.pin, enteredWait := false, detached := true,
      shdA := true, shdB := true }

/-- `ISOFastRead` with oracle `exitCrcOK` = the value of `crcOK` when its
wait loop exits; the source returns 0 when `crcOK < 3` and 1 otherwise. -/
def isoReadModel (whichCircuit checkDelay pulseCountAtGate exitCrcOK : Nat) :
    SessionOut :=
  let cfg := selectCircuitISO whichCircuit
  if pulseCountAtGate > checkDelay - 25 then
    { result := if exitCrcOK < 3 then 0 else 1,
      armedPin := cfg.pin, enteredWait := true, detached := true,
      shdA := true, shdB := true }
  else
    { result := 0, armedPin := cfg.pin, enteredWait := false, detached := true,
      shdA := true, shdB := true }

/-! ### Presentation helpers -/

/-- Lower-case hex digit, as produced by Arduino `String(v, HEX)`. -/
def hexDigitL (n : Nat) : Char :=
  if n < 10 then Char.ofNat (48 + n) else Char.ofNat (87 + n)

/-- Upper-case hex digit, as produced by `sprintf` with `%X`. -/
def hexDigitU (n : Nat) : Char :=
  if n < 10 then Char.ofNat (48 + n) else Char.ofNat (55 + n)

/-- Arduino `String(v, HEX)` for a byte value: minimal lower-case digits
(one digit below 0x10, two otherwise). -/
def natHexMinL (v : Nat) : List Char :=
  if v < 16 then [hexDigitL v] else [hexDigitL (v / 16 % 16), hexDigitL (v % 16)]

/-- `processTag`'s per-byte string: `String(v, HEX)` prefixed by "0" when
`v < 0x10`. -/
def byteStrL (v : Nat) : List Char :=
  if v < 16 then '0' :: natHexMinL v else natHexMinL v

/-- `sprintf` `%02X` for a byte value. -/
def hex2U (v : Nat) : List Char := [hexDigitU (v / 16 % 16), hexDigitU (v % 16)]

/-- `sprintf` `%03X` for a value below 0x1000 (the country code is at most
1023). -/
def hex3U (v : Nat) : List Char :=
  [hexDigitU (v / 256 % 16), hexDigitU (v / 16 % 16), hexDigitU (v % 16)]

/-- The `toupper` loop applied to each character of the result string. -/
def asciiToUpper (c : Char) : Char :=
  if 97 ≤ c.toNat ∧ c.toNat ≤ 122 then Char.ofNat (c.toNat - 32) else c

/-- One payload byte assembled by `processTag`:
`((RFIDbytes[2i] << 3) & 0xF0) + ((RFIDbytes[2i+1] >> 1) & 0x0F)`. -/
def payloadByte (bytes : List Nat) (i : Nat) : Nat :=
  (((bytes.getD (2 * i) 0) <<< 3) &&& 0xF0) + (((bytes.getD (2 * i + 1) 0) >>> 1) &&& 0x0F)

/-- Caller-observable outputs of `processTag`. `user` is the value left in
the caller's variable: the C parameter `byte RFIDtagUser` is passed by
value, so the assignment `RFIDtagUser = RFIDtagArray[0]` inside the
function never reaches the caller. -/
structure TagOut where
  arr : List Nat
  str : List Char
  user : Nat
  num : Nat
deriving DecidableEq

/-- `processTag` from `Manchester.h`, over the assembled `RFIDbytes` and
the caller's current `RFIDtagUser` value. -/
def processTag (bytes : List Nat) (userIn : Nat) : TagOut :=
  let a0 := payloadByte bytes 0
  let a1 := payloadByte bytes 1
  let a2 := payloadByte bytes 2
  let a3 := payloadByte bytes 3
  let a4 := payloadByte bytes 4
  { arr := [a0, a1, a2, a3, a4],
    str := (byteStrL a0 ++ byteStrL a1 ++ byteStrL a2 ++ byteStrL a3 ++ byteStrL a4).map
      asciiToUpper,
    user := userIn,
    num := ((a1 <<< 24) + (a2 <<< 16) + (a3 <<< 8) + a4) % 4294967296 }

/-- Caller-observable outputs of `processISOTag` (all delivered through
pointers in the source). -/
structure ISOTagOut where
  arr : List Nat
  str : List Char
  countryCode : Nat
  tagTemp : Nat
  num : Nat
deriving DecidableEq

/-- `processISOTag` from `Manchester.h`: copies bytes 0..5 (loop
unrolled), takes the extension byte from `RFIDbytes[10]`, builds the tag
number and country code, and formats
`"%03X.%02X%02X%02X%02X%02X"` followed by the `toupper` loop. -/
def processISOTag (bytes : List Nat) : ISOTagOut :=
  let arr := [bytes.getD 0 0, bytes.getD 1 0, bytes.getD 2 0,
              bytes.getD 3 0, bytes.getD 4 0, bytes.getD 5 0]
  let cc := ((arr.getD 5 0) <<< 2) + ((arr.getD 4 0) >>> 6)
  { arr := arr,
    str := (hex3U cc ++ '.' :: (hex2U ((bytes.getD 4 0) &&& 0x3F) ++ hex2U (bytes.getD 3 0)
              ++ hex2U (bytes.getD 2 0) ++ hex2U (bytes.getD 1 0)
              ++ hex2U (bytes.getD 0 0))).map asciiToUpper,
    countryCode := cc,
    tagTemp := bytes.getD 10 0,
    num := (((arr.getD 3 0) <<< 24) + ((arr.getD 2 0) <<< 16) + ((arr.getD 1 0) <<< 8)
            + arr.getD 0 0) % 4294967296 }

/-! ### Concrete states used in witnesses and counterexamples -/

/-- The EM4100 decoder state right after `FastRead` arms it. -/
def emZero : EMState :=
  { rParity := 0, parityFail := 0x7FF, pulseCount := 0, OneCounter := 0,
    longPulseDetected := 0, pastPulseLong := 0, byteCounter := 0, bitCounter := 4,
    bytes := List.replicate 16 0 }

/-- The FDX-B decoder state right after `ISOFastRead` arms it. -/
def isoZero : ISOState :=
  { crc := 0, crcOK := 0, pulseCount := 0, tenZ := 0xFFFF, pulse2 := 0,
    byteCounter := 0, bitCounter := 10, bytes := List.replicate 16 0 }

/-- An EM4100 state with a completed, parity-clean frame (`parityFail = 0`,
all 11 groups filled; rows 0 and 1 are `0b00011` — data nibble 0001 with
matching row-parity bit — and the column XOR over all groups is zero). -/
def emDone : EMState :=
  { rParity := 0, parityFail := 0, pulseCount := 60, OneCounter := 9,
    longPulseDetected := 1, pastPulseLong := 1, byteCounter := 10, bitCounter := 0,
    bytes := [3, 3, 0, 0, 0, 0, 0, 0, 0, 0, 0, 0, 0, 0, 0, 0] }

/-- An FDX-B state positioned at the CRC-check point `(byteCounter,
bitCounter) = (9, 8)` with the half-bit toggle pending (`pulse2 = 1`) and
an all-zero buffer (whose CRC over bytes 0..7 matches bytes 8..9). -/
def isoAtCheck : ISOState :=
  { crc := 0, crcOK := 0, pulseCount := 40, tenZ := 0, pulse2 := 1,
    byteCounter := 9, bitCounter := 8, bytes := List.replicate 16 0 }

/-- An FDX-B state at the CRC-check point with the toggle at rest. -/
def isoCheck0 : ISOState :=
  { crc := 0, crcOK := 0, pulseCount := 40, tenZ := 0, pulse2 := 0,
    byteCounter := 9, bitCounter := 8, bytes := List.replicate 16 0 }

/-- `RFIDbytes` for the EM4100 tag `0F01020304` (row nibbles shifted left
of the parity bit; parity bits left at 0 — `processTag` ignores them). -/
def emFrameBytes : List Nat := [0, 0x1E, 0, 2, 0, 4, 0, 6, 0, 8, 0, 0, 0, 0, 0, 0]

/-! ### Helper lemmas -/

lemma testBit_bitSetU (x j : Nat) : (bitSetU x j).testBit j = true := by
  simp [bitSetU, Nat.testBit_lor]

lemma testBit_bitClearU (x j : Nat) (h : j < 32) : (bitClearU x j).testBit j = false := by
  simp [bitClearU, Nat.testBit_land, Nat.testBit_xor, Nat.shiftLeft_eq,
    Nat.testBit_two_pow_self]
  have h32 : (4294967295 : Nat) = 2 ^ 32 - 1 := by norm_num
  rw [h32, Nat.testBit_two_pow_sub_one]
  simp [h]

lemma testBit_2047 (j : Nat) (h : j ≤ 10) : Nat.testBit 2047 j = true := by
  interval_cases j <;> decide

lemma getD_set_self : ∀ (l : List Nat) (i v : Nat), i < l.length → (l.set i v).getD i 0 = v := by
  intro l
  induction l with
  | nil => intro i v h; simp at h
  | cons a t ih =>
      intro i v h
      cases i with
      | zero => rfl
      | succ n =>
          have : n < t.length := by simpa using h
          simpa [List.getD] using ih n v this

/-- `emPulsePhase` only updates the pulse-seeking counters; the frame
assembly fields pass through unchanged. -/
lemma emPulsePhase_fields (s : EMState) (f v : Nat) :
    (emPulsePhase s f v).1.rParity = s.rParity ∧
    (emPulsePhase s f v).1.parityFail = s.parityFail ∧
    (emPulsePhase s f v).1.byteCounter = s.byteCounter ∧
    (emPulsePhase s f v).1.bitCounter = s.bitCounter ∧
    (emPulsePhase s f v).1.bytes = s.bytes := by
  by_cases h1 : 395 < f ∧ f < 600 <;> by_cases h2 : 170 < f ∧ f < 395
  · exfalso; omega
  · simp only [emPulsePhase, if_pos h1, if_neg h2]
    split_ifs <;> simp
  · simp only [emPulsePhase, if_neg h1, if_pos h2]
    split_ifs <;> simp
  · simp [emPulsePhase, h1, h2]

/-- The flags returned by `emStoreI` are decided by the counters at entry
to the store block. -/
lemma emStoreI_flags (s : EMState) (b : Nat) :
    (emStoreI s b).2.1 = decide (s.bitCounter = 0 ∧ s.byteCounter < 10) ∧
    (emStoreI s b).2.2 = decide (s.bitCounter = 0 ∧ s.byteCounter = 10) := by
  by_cases h0 : s.bitCounter = 0
  · by_cases h10 : s.byteCounter < 10
    · have hne : s.byteCounter ≠ 10 := by omega
      simp [emStoreI, h0, h10, hne]
    · by_cases h11 : s.byteCounter = 10
      · simp [emStoreI, h0, h10, h11]
        split_ifs <;> simp
      · simp [emStoreI, h0, h10, h11]
  · have h' : 0 < s.bitCounter := Nat.pos_of_ne_zero h0
    simp [emStoreI, h0, h']

/-- A store with `bitCounter > 0` never touches the failure bitmap. -/
lemma emStoreI_parityFail_of_bit_pos (s : EMState) (b : Nat) (h : s.bitCounter ≠ 0) :
    (emStoreI s b).1.parityFail = s.parityFail := by
  have h' : 0 < s.bitCounter := Nat.pos_of_ne_zero h
  simp [emStoreI, h']

lemma isoSwitch_crcOK_one (s : ISOState) : (isoSwitch s 1).crcOK = s.crcOK := by
  simp only [isoSwitch, if_pos rfl]
  split_ifs <;> rfl

lemma isoSwitch_crcOK_two (s : ISOState) : (isoSwitch s 2).crcOK = s.crcOK := by
  simp only [isoSwitch]
  norm_num
  split_ifs <;> rfl

/-! ### Claim theorems -/

/-- C1: for every read session that passes the presence gate, `FastRead`
returns 1 exactly when `parityFail` is 0 when the wait loop exits, and
`ISOFastRead` returns 1 exactly when `crcOK` is 3 when its wait loop
exits; in every other case the session returns 0. (`crcOK` only ever
takes the values 0, 1 and 3.) -/
theorem c1_session_result (w cd pc pf ck : Nat)
    (hgate : pc > cd - 25) (hck : ck = 0 ∨ ck = 1 ∨ ck = 3) :
    ((fastReadModel w cd pc pf).result = 1 ↔ pf = 0) ∧
    ((fastReadModel w cd pc pf).result = 0 ↔ pf ≠ 0) ∧
    ((isoReadModel w cd pc ck).result = 1 ↔ ck = 3) ∧
    ((isoReadModel w cd pc ck).result = 0 ↔ ck ≠ 3) := by
  simp only [fastReadModel, isoReadModel, if_pos hgate]
  refine ⟨?_, ?_, ?_, ?_⟩ <;> split_ifs <;> simp_all <;> omega

theorem c1_session_result_witness :
    (fastReadModel 1 100 100 0).result = 1 ∧ (isoReadModel 1 100 100 3).result = 1 :=
  ⟨((c1_session_result 1 100 100 0 3 (by decide) (by decide)).1).mpr rfl,
   ((c1_session_result 1 100 100 0 3 (by decide) (by decide)).2.2.1).mpr rfl⟩

/-- C4: with `checkDelay ≥ 25`, a session whose pulse counter is at most
`checkDelay − 25` after the `checkDelay` sleep detaches the interrupt,
shuts down both antenna circuits and returns 0 without entering the wait
loop; otherwise it proceeds to the wait loop. -/
theorem c4_presence_gate (w cd pc pf ck : Nat) (hcd : 25 ≤ cd) :
    (pc ≤ cd - 25 →
      fastReadModel w cd pc pf =
        { result := 0, armedPin := (selectCircuitEM w).pin, enteredWait := false,
          detached := true, shdA := true, shdB := true } ∧
      isoReadModel w cd pc ck =
        { result := 0, armedPin := (selectCircuitISO w).pin, enteredWait := false,
          detached := true, shdA := true, shdB := true }) ∧
    (pc > cd - 25 →
      (fastReadModel w cd pc pf).enteredWait = true ∧
      (isoReadModel w cd pc ck).enteredWait = true) := by
  constructor
  · intro h
    have h' : ¬(pc > cd - 25) := by omega
    constructor <;> simp [fastReadModel, isoReadModel, h']
  · intro h
    constructor <;> simp [fastReadModel, isoReadModel, h]

theorem c4_presence_gate_witness :
    fastReadModel 1 100 50 0 =
      { result := 0, armedPin := 41, enteredWait := false, detached := true,
        shdA := true, shdB := true } :=
  ((c4_presence_gate 1 100 50 0 0 (by decide)).1 (by decide)).1

/-- C10: any circuit argument other than 1 (0, 2, 3, ...) is accepted and
behaves exactly as circuit 2: secondary antenna enabled (`SHD_PINB` low),
primary disabled (`SHD_PINA` high), edge handler attached to
`DEMOD_OUT_2` (pin 42); the session outcome is identical to circuit 2's. -/
theorem c10_circuit_default (w : Nat) (h : w ≠ 1) :
    selectCircuitEM w = ⟨true, false, 42⟩ ∧
    selectCircuitISO w = ⟨true, false, 42⟩ ∧
    selectCircuitEM w = selectCircuitEM 2 ∧
    selectCircuitISO w = selectCircuitISO 2 ∧
    (∀ cd pc pf, fastReadModel w cd pc pf = fastReadModel 2 cd pc pf) ∧
    (∀ cd pc ck, isoReadModel w cd pc ck = isoReadModel 2 cd pc ck) := by
  simp [selectCircuitEM, selectCircuitISO, fastReadModel, isoReadModel, h]

theorem c10_circuit_default_witness : selectCircuitEM 0 = ⟨true, false, 42⟩ :=
  (c10_circuit_default 0 (by decide)).1

/-- C5 (claim as stated is false): a real inter-edge gap of 65836 µs — far
above the 600 µs upper bound — is classified SHORT by the EM4100 handler
(and 65636 µs is classified SHORT by the FDX-B handler), because the
handler truncates the elapsed time to a `uint16` before the window tests. -/
theorem c5_classification_counterexample :
    600 ≤ 65836 ∧ emClassOfDelta 65836 = PulseClass.SHORT ∧
    275 ≤ 65636 ∧ isoClassOfDelta 65636 = PulseClass.SHORT := by decide

/-- C5 (amended): classification is computed on the elapsed time truncated
to 16 bits. SHORT/LONG hold exactly when `Δt mod 65536` lies in the stated
windows; everything else is INVALID. For the EM4100 handler an INVALID
classification is the same as the local `RFbit` keeping its no-pulse value
255. -/
theorem c5_classification_mod_2_16 :
    (∀ dt : Nat, emClassOfDelta dt = PulseClass.SHORT ↔
      170 < dt % 65536 ∧ dt % 65536 < 395) ∧
    (∀ dt : Nat, emClassOfDelta dt = PulseClass.LONG ↔
      395 < dt % 65536 ∧ dt % 65536 < 600) ∧
    (∀ dt : Nat, isoClassOfDelta dt = PulseClass.SHORT ↔
      85 < dt % 65536 ∧ dt % 65536 < 170) ∧
    (∀ dt : Nat, isoClassOfDelta dt = PulseClass.LONG ↔
      200 < dt % 65536 ∧ dt % 65536 < 275) ∧
    (∀ (s : EMState) (f v : Nat), v ≤ 1 →
      ((emPulsePhase s f v).2 = 255 ↔ emClass f = PulseClass.INVALID)) := by
  refine ⟨?_, ?_, ?_, ?_, ?_⟩
  · intro dt
    unfold emClassOfDelta emClass
    split_ifs <;> simp_all <;> omega
  · intro dt
    unfold emClassOfDelta emClass
    split_ifs <;> simp_all <;> omega
  · intro dt
    unfold isoClassOfDelta isoClass isoClassify
    split_ifs <;> simp_all <;> omega
  · intro dt
    unfold isoClassOfDelta isoClass isoClassify
    split_ifs <;> simp_all <;> omega
  · intro s f v hv
    by_cases h1 : 395 < f ∧ f < 600
    · by_cases h2 : 170 < f ∧ f < 395
      · exfalso; omega
      · simp only [emPulsePhase, emClass, if_pos h1, if_neg h2]
        split_ifs <;> simp_all <;> omega
    · by_cases h2 : 170 < f ∧ f < 395
      · simp only [emPulsePhase, emClass, if_pos h2, if_neg h1]
        split_ifs <;> simp_all <;> omega
      · simp [emPulsePhase, emClass, h1, h2]

theorem c5_classification_mod_2_16_witness :
    (emPulsePhase emZero 1000 0).2 = 255 ↔ emClass 1000 = PulseClass.INVALID :=
  c5_classification_mod_2_16.2.2.2.2 emZero 1000 0 (by decide)

/-- C6 (claim as stated is false): `emDone` is a completed,
integrity-passed EM4100 state (`parityFail = 0`, all 11 groups filled),
yet a single further edge with an out-of-window interval (1000 µs) resets
the failure bitmap to 0x7FF and wipes `RFIDbytes` — the completed frame
does not survive until disarm. -/
theorem c6_em_completion_counterexample :
    emDone.parityFail = 0 ∧
    colXor emDone.bytes = 0 ∧ rowParity 3 = 3 &&& 1 ∧
    (emStep emDone 1000 0).parityFail = 0x7FF ∧
    (emStep emDone 1000 0).bytes = List.replicate 16 0 ∧
    emDone.bytes ≠ List.replicate 16 0 := by decide

/-- C6 (amended): the FDX-B handler is guarded by `crcOK != 3`, so once
the FDX-B decoder reports completion every further edge leaves the entire
decoder state — completion flag and `RFIDbytes` included — unchanged; the
EM4100 decoder has no such guard and a completed frame can be destroyed by
a later edge. -/
theorem c6_iso_complete_frozen (s : ISOState) (f : Nat) (h : s.crcOK = 3) :
    isoStep s f = s := by
  simp [isoStep, isoStepI, h]

theorem c6_iso_complete_frozen_witness :
    isoStep { isoZero with crcOK := 3 } 100 = { isoZero with crcOK := 3 } :=
  c6_iso_complete_frozen { isoZero with crcOK := 3 } 100 rfl

/-- C7 (claim as stated is false): two consecutive edges both execute the
FDX-B CRC computation-and-comparison on the same frame. At `isoAtCheck`
(frame position `(9, 8)`, half-bit toggle pending) a short pulse runs the
check — which passes, `crcOK` becomes 1 — but only clears the toggle, so
the frame position is unchanged and the next edge runs the check again. -/
theorem c7_check_twice_counterexample :
    (isoStepI isoAtCheck 100).2 = true ∧
    (isoStep isoAtCheck 100).byteCounter = 9 ∧
    (isoStep isoAtCheck 100).bitCounter = 8 ∧
    (isoStep isoAtCheck 100).crcOK = 1 ∧
    (isoStepI (isoStep isoAtCheck 100) 100).2 = true := by decide

/-- C7 (amended): the integrity checks run on every edge delivered at the
check position, which can be more than once per frame. The FDX-B CRC check
runs exactly when the decoder is incomplete (`crcOK ≠ 3`) and
`(byteCounter, bitCounter) = (9, 8)`; the EM4100 row-parity check runs
exactly when a data bit is stored with `bitCounter = 0` and
`byteCounter < 10`; the EM4100 column-parity check runs exactly when a
data bit is stored with `bitCounter = 0` and `byteCounter = 10`. -/
theorem c7_check_characterization :
    (∀ (s : ISOState) (f : Nat),
      (isoStepI s f).2 = true ↔ (s.crcOK ≠ 3 ∧ s.byteCounter = 9 ∧ s.bitCounter = 8)) ∧
    (∀ (s : EMState) (f v : Nat),
      (emStepI s f v).2.1 = true ↔
        ((emPulsePhase s f v).2 < 100 ∧ s.bitCounter = 0 ∧ s.byteCounter < 10)) ∧
    (∀ (s : EMState) (f v : Nat),
      (emStepI s f v).2.2 = true ↔
        ((emPulsePhase s f v).2 < 100 ∧ s.bitCounter = 0 ∧ s.byteCounter = 10)) := by
  refine ⟨?_, ?_, ?_⟩
  · intro s f
    by_cases h : s.crcOK = 3 <;> simp [isoStepI, h]
  · intro s f v
    obtain ⟨_, _, hby, hbc, _⟩ := emPulsePhase_fields s f v
    by_cases hr : (emPulsePhase s f v).2 < 100
    · have hf := (emStoreI_flags (emPulsePhase s f v).1 (emPulsePhase s f v).2).1
      simp only [emStepI, if_pos hr]
      simp [hf, hby, hbc, hr]
    · simp only [emStepI, if_neg hr]
      split_ifs <;> simp [hr]
  · intro s f v
    obtain ⟨_, _, hby, hbc, _⟩ := emPulsePhase_fields s f v
    by_cases hr : (emPulsePhase s f v).2 < 100
    · have hf := (emStoreI_flags (emPulsePhase s f v).1 (emPulsePhase s f v).2).2
      simp only [emStepI, if_pos hr]
      simp [hf, hby, hbc, hr]
    · simp only [emStepI, if_neg hr]
      split_ifs <;> simp [hr]

/-- C2: in `ISOINT_demodOut`, exactly at `(byteCounter, bitCounter) =
(9, 8)`, the CRC-16 (`crc16k` with initial value 0) of bytes 0..7 is
compared to `(RFIDbytes[9] << 8) + RFIDbytes[8]`; on a match `crcOK`
becomes 1, and on a mismatch the decoder performs the full reset
`byteCounter = 0, bitCounter = 10, tenZ = 0xFFFF, pulse2 = 0, crcOK = 0`
(`switchVar` is forced to 0, which executes case 0). -/
theorem c2_crc_check (s : ISOState) (f : Nat)
    (hck : s.crcOK ≠ 3) (h9 : s.byteCounter = 9) (h8 : s.bitCounter = 8) :
    (∀ (t : ISOState) (sv : Nat), ¬(t.byteCounter = 9 ∧ t.bitCounter = 8) →
        isoCheckStage t sv = (t, sv)) ∧
    (crc16k 0 (s.bytes.take 8) = ((s.bytes.getD 9 0) <<< 8) + s.bytes.getD 8 0 →
      (∀ sv, isoCheckStage s sv =
          ({ s with crc := crc16k 0 (s.bytes.take 8), crcOK := 1 }, sv)) ∧
      (isoClassify f = 1 ∨ isoClassify f = 2 → (isoStep s f).crcOK = 1)) ∧
    (crc16k 0 (s.bytes.take 8) ≠ ((s.bytes.getD 9 0) <<< 8) + s.bytes.getD 8 0 →
      isoStep s f =
        { s with crc := crc16k 0 (s.bytes.take 8), crcOK := 0,
                 byteCounter := 0, bitCounter := 10, tenZ := 0xFFFF, pulse2 := 0 }) := by
  refine ⟨?_, ?_, ?_⟩
  · intro t sv h
    simp [isoCheckStage, h]
  · intro hm
    have hstage : ∀ sv, isoCheckStage s sv =
        ({ s with crc := crc16k 0 (s.bytes.take 8), crcOK := 1 }, sv) := by
      intro sv
      simp [isoCheckStage, h9, h8, hm]
    refine ⟨hstage, ?_⟩
    intro hcls
    have hstep : isoStep s f =
        isoSwitch { s with crc := crc16k 0 (s.bytes.take 8), crcOK := 1 } (isoClassify f) := by
      simp [isoStep, isoStepI, hck, hstage, h9]
    rw [hstep]
    rcases hcls with h | h <;> rw [h]
    · rw [isoSwitch_crcOK_one]
    · rw [isoSwitch_crcOK_two]
  · intro hm
    simp only [List.getD_eq_getElem?_getD] at hm
    have hstage : ∀ sv, isoCheckStage s sv =
        ({ s with crc := crc16k 0 (s.bytes.take 8) }, 0) := by
      intro sv
      simp [isoCheckStage, h9, h8, hm]
    have hstep : isoStep s f =
        isoSwitch { s with crc := crc16k 0 (s.bytes.take 8) } 0 := by
      simp [isoStep, isoStepI, hck, hstage, h9]
    rw [hstep]
    rfl

theorem c2_crc_check_witness : (isoStep isoCheck0 250).crcOK = 1 :=
  ((c2_crc_check isoCheck0 250 (by decide) rfl rfl).2.1 (by decide)).2 (by decide)

/-- C3: when a row's last bit (`bitCounter = 0`) is stored with
`byteCounter = i < 10`, bit `i` of the failure bitmap ends up clear iff
the XOR of the stored row's bits 4..1 equals its bit 0; when the final bit
of the 11th group is stored (`byteCounter = 10`), bit 10 ends up clear if
the column XOR (`colXor`) is zero and the bitmap is untouched otherwise;
and no step clears a bitmap bit except a store at `bitCounter = 0` (the
out-of-window reset sets all 11 bits). -/
theorem c3_em_parity (s : EMState) (b : Nat) (hlen : s.bytes.length = 16) :
    (s.bitCounter = 0 → s.byteCounter < 10 →
      (Nat.testBit (emStore s b).parityFail s.byteCounter = false ↔
        rowParity (emStoredByte s b) = (emStoredByte s b) &&& 1)) ∧
    (s.bitCounter = 0 → s.byteCounter = 10 →
      (colXor (s.bytes.set 10 (emStoredByte s b)) = 0 →
        Nat.testBit (emStore s b).parityFail 10 = false) ∧
      (colXor (s.bytes.set 10 (emStoredByte s b)) ≠ 0 →
        (emStore s b).parityFail = s.parityFail)) ∧
    (∀ f v j, j ≤ 10 → Nat.testBit (emStep s f v).parityFail j = false →
      Nat.testBit s.parityFail j = false ∨
        (s.bitCounter = 0 ∧ (emPulsePhase s f v).2 < 100)) := by
  refine ⟨?_, ?_, ?_⟩
  · intro h0 h10
    have hby : s.byteCounter < s.bytes.length := by omega
    have hget : (s.bytes.set s.byteCounter (emStoredByte s b)).getD s.byteCounter 0
        = emStoredByte s b := getD_set_self _ _ _ hby
    simp only [List.getD_eq_getElem?_getD] at hget
    simp only [emStore, emStoreI, h0]
    simp [h0, h10, hget]
    split_ifs with hc
    · simp [testBit_bitClearU s.parityFail s.byteCounter (by omega), hc]
    · simp [testBit_bitSetU, hc]
  · intro h0 h10
    have hn : ¬s.byteCounter < 10 := by omega
    constructor
    · intro hcol
      simp only [emStore, emStoreI, h0]
      simp [h0, h10, hn, hcol, testBit_bitClearU s.parityFail 10 (by norm_num)]
    · intro hcol
      simp only [emStore, emStoreI, h0]
      simp [h0, h10, hn, hcol]
  · intro f v j hj hbit
    obtain ⟨_, hpf, _, hbc, _⟩ := emPulsePhase_fields s f v
    by_cases hr : (emPulsePhase s f v).2 < 100
    · by_cases hb0 : s.bitCounter = 0
      · exact Or.inr ⟨hb0, hr⟩
      · left
        have hkeep : (emStoreI (emPulsePhase s f v).1 (emPulsePhase s f v).2).1.parityFail
            = (emPulsePhase s f v).1.parityFail :=
          emStoreI_parityFail_of_bit_pos _ _ (by rw [hbc]; exact hb0)
        have hstep : (emStep s f v).parityFail = s.parityFail := by
          simp only [emStep, emStepI, if_pos hr]
          rw [hkeep, hpf]
        rwa [hstep] at hbit
    · by_cases hz : (emPulsePhase s f v).2 = 255 ∧ (emPulsePhase s f v).1.pulseCount ≠ 0
      · have hstep : (emStep s f v).parityFail = 2047 := by
          simp only [emStep, emStepI, if_neg hr, if_pos hz]
          rfl
        rw [hstep, testBit_2047 j hj] at hbit
        exact absurd hbit (by simp)
      · left
        have hstep : (emStep s f v).parityFail = s.parityFail := by
          simp only [emStep, emStepI, if_neg hr, if_neg hz]
          exact hpf
        rwa [hstep] at hbit

theorem c3_em_parity_witness :
    Nat.testBit (emStore { emZero with bitCounter := 0 } 0).parityFail 0 = false ↔
      rowParity (emStoredByte { emZero with bitCounter := 0 } 0)
        = (emStoredByte { emZero with bitCounter := 0 } 0) &&& 1 :=
  (c3_em_parity { emZero with bitCounter := 0 } 0 (by decide)).1 rfl (by decide)

/-- C8: on the assembled frame for tag `0F01020304`, `processTag` produces
the 5 payload bytes, the uppercase hex string and the 32-bit identifier
exactly as the claim states, but the user byte never reaches the caller:
`RFIDtagUser` is a by-value `byte` parameter, so the caller's variable
(here initialised to 0) keeps its old value instead of payload byte 0
(`0x0F`). -/
theorem c8_user_byte_not_delivered :
    (processTag emFrameBytes 0).arr = [0x0F, 0x01, 0x02, 0x03, 0x04] ∧
    (processTag emFrameBytes 0).str = "0F01020304".toList ∧
    (processTag emFrameBytes 0).num = 0x01020304 ∧
    payloadByte emFrameBytes 0 = 0x0F ∧
    (processTag emFrameBytes 0).user = 0 ∧
    (processTag emFrameBytes 0).user ≠ payloadByte emFrameBytes 0 := by decide

lemma asciiToUpper_hexDigitU (n : Nat) (h : n < 16) :
    asciiToUpper (hexDigitU n) = hexDigitU n := by
  interval_cases n <;> decide

lemma map_asciiToUpper_hex2U (v : Nat) : (hex2U v).map asciiToUpper = hex2U v := by
  simp [hex2U, asciiToUpper_hexDigitU (v / 16 % 16) (Nat.mod_lt _ (by norm_num)),
    asciiToUpper_hexDigitU (v % 16) (Nat.mod_lt _ (by norm_num))]

lemma map_asciiToUpper_hex3U (v : Nat) : (hex3U v).map asciiToUpper = hex3U v := by
  simp [hex3U, asciiToUpper_hexDigitU (v / 256 % 16) (Nat.mod_lt _ (by norm_num)),
    asciiToUpper_hexDigitU (v / 16 % 16) (Nat.mod_lt _ (by norm_num)),
    asciiToUpper_hexDigitU (v % 16) (Nat.mod_lt _ (by norm_num))]

/-- C9: for a 13-byte FDX-B frame (byte values below 256), `processISOTag`
delivers the country code `(byte[5] << 2) + (byte[4] >> 6)`, the 32-bit
tag number from bytes 3..0 little-endian, the extension byte `byte[10]`,
and the uppercase string of 3 hex digits of the country code, a dot, and
10 hex digits of `(byte[4] & 0x3F), byte[3], byte[2], byte[1], byte[0]`. -/
theorem c9_iso_format (bytes : List Nat)
    (h0 : bytes.getD 0 0 < 256) (h1 : bytes.getD 1 0 < 256) (h2 : bytes.getD 2 0 < 256)
    (h3 : bytes.getD 3 0 < 256) (h4 : bytes.getD 4 0 < 256) (h5 : bytes.getD 5 0 < 256) :
    (processISOTag bytes).countryCode
        = ((bytes.getD 5 0) <<< 2) + ((bytes.getD 4 0) >>> 6) ∧
    (processISOTag bytes).num
        = (((bytes.getD 3 0) <<< 24) + ((bytes.getD 2 0) <<< 16) + ((bytes.getD 1 0) <<< 8)
            + bytes.getD 0 0) % 4294967296 ∧
    (processISOTag bytes).tagTemp = bytes.getD 10 0 ∧
    (processISOTag bytes).str
        = hex3U (((bytes.getD 5 0) <<< 2) + ((bytes.getD 4 0) >>> 6)) ++ '.' ::
          (hex2U ((bytes.getD 4 0) &&& 0x3F) ++ hex2U (bytes.getD 3 0)
            ++ hex2U (bytes.getD 2 0) ++ hex2U (bytes.getD 1 0) ++ hex2U (bytes.getD 0 0)) := by
  refine ⟨rfl, rfl, rfl, ?_⟩
  simp [processISOTag, List.map_append, map_asciiToUpper_hex3U, map_asciiToUpper_hex2U]
  decide

theorem c9_iso_format_witness :
    (processISOTag (List.replicate 16 0)).countryCode = 0 :=
  (c9_iso_format (List.replicate 16 0) (by decide) (by decide) (by decide) (by decide)
    (by decide) (by decide)).1

-- Quick sanity examples (elaboration checks) --
example : crc16k 0 [0, 0, 0, 0, 0, 0, 0, 0] = 0 := by decide
example : emClassOfDelta 300 = .SHORT := by decide
example : (processTag emFrameBytes 0).str = "0F01020304".toList := by decide
